import Mathlib

/-!
# Verification of the javelin release tool against its specification

Shallow embedding of the core logic of the `javelin` release workflow
(`src/main.rs`, `src/github.rs`, `src/utilities.rs`).  I/O is modelled by
making every remote response and every on-disk JSON document an explicit
argument / result; JSON documents are modelled at the value level (the
`serde_json` text layer is elided, so "deserialize this string" becomes
"decode this JSON value").  Machine integers (`u32`) are natural numbers;
where the source can overflow, arithmetic is taken modulo `2^32`
(release-profile wrapping semantics; a debug build would panic there — in
either case the un-wrapped value is never produced).
-/

/-- A JSON value, mirroring `serde_json::Value`.  Objects are association
lists; `serde_json`'s default map is ordered by key, but no claim here
depends on field order, only on field values. -/
inductive Json where
  | null
  | bool (b : Bool)
  | num (n : Int)
  | str (s : String)
  | arr (elems : List Json)
  | obj (fields : List (String × Json))

/-- Insert-or-replace in an association list, mirroring map insertion in
`serde_json::Map` / `HashMap`: an existing key has its value replaced in
place, a new key is added. -/
def setAssoc {α : Type} : List (String × α) → String → α → List (String × α)
  | [], k, v => [(k, v)]
  | (k', v') :: rest, k, v =>
      if k' = k then (k, v) :: rest else (k', v') :: setAssoc rest k v

/-- `value["key"]` (non-mutating `Value::index`): `Null` on a missing key or
a non-object receiver. -/
def Json.getField : Json → String → Json
  | .obj fields, key =>
      match fields.lookup key with
      | some v => v
      | none => .null
  | _, _ => .null

/-- `Value::as_str`. -/
def Json.asStr : Json → Option String
  | .str s => some s
  | _ => none

/-- `Value::as_object` / `as_object_mut` (viewed as a read). -/
def Json.asObj : Json → Option (List (String × Json))
  | .obj fields => some fields
  | _ => none

/-- Set a field of an object; on a non-object receiver the value is
returned unchanged (the corresponding `serde_json` mutable access would
panic there; every use below is guarded so this case is unreachable). -/
def Json.setField : Json → String → Json → Json
  | .obj fields, key, v => .obj (setAssoc fields key v)
  | j, _, _ => j

/-- Rust's `str::split('.')`: cut the character sequence at every `'.'`,
keeping empty segments (so `""` gives one empty segment and `"1."` gives
`["1", ""]`). -/
def splitSegs : List Char → List (List Char)
  | [] => [[]]
  | c :: rest =>
      if c = '.' then [] :: splitSegs rest
      else
        match splitSegs rest with
        | seg :: segs => (c :: seg) :: segs
        | [] => [[c]]

/-- `str::parse::<u32>` on a segment: optional leading `+`, then one or
more ASCII digits, value below `2^32` (larger values are a `PosOverflow`
parse error). -/
def parseU32 (s : List Char) : Option Nat :=
  let cs := match s with
    | '+' :: rest => rest
    | cs => cs
  if cs = [] then none
  else if cs.all Char.isDigit then
    let n := cs.foldl (fun acc c => acc * 10 + (c.toNat - 48)) 0
    if n < 2 ^ 32 then some n else none
  else none

/-- `format!("{}.{}.{}", a, b, c)` — decimal, no sign, no leading zeros. -/
def formatVersion (a b c : Nat) : String :=
  toString a ++ "." ++ toString b ++ "." ++ toString c

/-- The kinds of version bump (`enum UpdateType` in the source). -/
inductive UpdateType where
  | Major
  | Minor
  | Patch
  | Current

/-- `update_version` (src/main.rs:112-142, identical in
src/utilities.rs:96-129): split on `'.'`, parse every segment as `u32`
(any failure is "Failed to parse version segments"), require exactly three
segments, then increment/zero segments according to the update type and
re-format.  The `u32` increments wrap modulo `2^32`. -/
def update_version (current_version : String) (update_type : UpdateType) :
    Except String String :=
  match (splitSegs current_version.data).mapM parseU32 with
  | none => .error "Failed to parse version segments"
  | some [a, b, c] =>
      match update_type with
      | .Major => .ok (formatVersion ((a + 1) % 2 ^ 32) 0 0)
      | .Minor => .ok (formatVersion a ((b + 1) % 2 ^ 32) 0)
      | .Patch => .ok (formatVersion a b ((c + 1) % 2 ^ 32))
      | .Current => .ok (formatVersion a b c)
  | some _ => .error "Version string does not have three segments"

/-- The versions `update_version` accepts: exactly three dot-separated
segments, each parsing as a `u32`. -/
def parseVersion (s : String) : Option (Nat × Nat × Nat) :=
  match (splitSegs s.data).mapM parseU32 with
  | some [a, b, c] => some (a, b, c)
  | _ => none

/-- The platform-key match in `main` (src/main.rs:526-535), transcribed
arm by arm in source order; `none` is the `panic!` arm. -/
def platform_key (os arch : String) : Option String :=
  if os = "macos" then
    if arch = "aarch64" then some "darwin-aarch64" else some "darwin-x86_64"
  else if os = "linux" ∧ arch = "x86_64" then some "linux-x86_64"
  else if os = "windows" ∧ arch = "x86_64" then some "windows-x86_64"
  else none

-- Bridging lemma: `parseVersion` succeeds exactly on the three-segment
-- parses that `update_version` accepts.
theorem parseVersion_eq_some {s : String} {a b c : Nat}
    (h : parseVersion s = some (a, b, c)) :
    (splitSegs s.data).mapM parseU32 = some [a, b, c] := by
  unfold parseVersion at h
  rcases hm : (splitSegs s.data).mapM parseU32 with _ | l
  · rw [hm] at h; exact absurd h (by simp)
  · rw [hm] at h
    match l, h with
    | [a', b', c'], h =>
      simp only [Option.some.injEq, Prod.mk.injEq] at h
      obtain ⟨h1, h2, h3⟩ := h
      subst h1; subst h2; subst h3; rfl

/-- C3 counterexample: `"4294967295.0.0"` is accepted by `update_version`
(its major segment is `u32::MAX`), but a Major bump yields `"0.0.0"` — the
`u32` increment wraps modulo `2^32` (a debug build would panic) — not the
`"4294967296.0.0"` that "increments the bumped segment by one" demands. -/
theorem update_version_major_overflow_counterexample :
    parseVersion "4294967295.0.0" = some (4294967295, 0, 0)
    ∧ update_version "4294967295.0.0" UpdateType.Major = .ok "0.0.0"
    ∧ formatVersion (4294967295 + 1) 0 0 = "4294967296.0.0"
    ∧ ("0.0.0" : String) ≠ "4294967296.0.0" :=
  ⟨rfl, rfl, rfl, by decide⟩

/-- C3 (amended): for every version `v` that `update_version` accepts, with
numeric segments `(a, b, c)`: Major yields `(a+1) % 2^32 . 0 . 0`, Minor
yields `a . (b+1) % 2^32 . 0`, Patch yields `a . b . (c+1) % 2^32`; in
particular, whenever the bumped segment is below `u32::MAX` the bump
preserves the numeric values of the segments above the bumped one,
increments the bumped segment by one, and zeroes the segments below it. -/
theorem update_version_bump_segments (v : String) (a b c : Nat)
    (h : parseVersion v = some (a, b, c)) :
    update_version v UpdateType.Major = .ok (formatVersion ((a + 1) % 2 ^ 32) 0 0)
    ∧ update_version v UpdateType.Minor = .ok (formatVersion a ((b + 1) % 2 ^ 32) 0)
    ∧ update_version v UpdateType.Patch = .ok (formatVersion a b ((c + 1) % 2 ^ 32))
    ∧ (a + 1 < 2 ^ 32 →
        update_version v UpdateType.Major = .ok (formatVersion (a + 1) 0 0))
    ∧ (b + 1 < 2 ^ 32 →
        update_version v UpdateType.Minor = .ok (formatVersion a (b + 1) 0))
    ∧ (c + 1 < 2 ^ 32 →
        update_version v UpdateType.Patch = .ok (formatVersion a b (c + 1))) := by
  have hm := parseVersion_eq_some h
  unfold update_version
  rw [hm]
  refine ⟨rfl, rfl, rfl, ?_, ?_, ?_⟩
  · intro hlt
    show Except.ok (formatVersion ((a + 1) % 2 ^ 32) 0 0)
      = Except.ok (formatVersion (a + 1) 0 0)
    rw [Nat.mod_eq_of_lt hlt]
  · intro hlt
    show Except.ok (formatVersion a ((b + 1) % 2 ^ 32) 0)
      = Except.ok (formatVersion a (b + 1) 0)
    rw [Nat.mod_eq_of_lt hlt]
  · intro hlt
    show Except.ok (formatVersion a b ((c + 1) % 2 ^ 32))
      = Except.ok (formatVersion a b (c + 1))
    rw [Nat.mod_eq_of_lt hlt]

/-- C3 witness: the amended claim evaluated at `"1.2.3"`. -/
theorem update_version_bump_segments_witness :
    update_version "1.2.3" UpdateType.Major = .ok (formatVersion 2 0 0)
    ∧ update_version "1.2.3" UpdateType.Minor = .ok (formatVersion 1 3 0)
    ∧ update_version "1.2.3" UpdateType.Patch = .ok (formatVersion 1 2 4) := by
  have h := update_version_bump_segments "1.2.3" 1 2 3 rfl
  exact ⟨h.2.2.2.1 (by norm_num), h.2.2.2.2.1 (by norm_num),
    h.2.2.2.2.2 (by norm_num)⟩

/-- C6 counterexample: `update_version` accepts `"1.2.03"` (Rust's `u32`
parse accepts leading zeros) but the Current kind re-formats the segments,
returning `"1.2.3" ≠ "1.2.03"` — so `bump(v, Current) == v` fails for an
accepted input. -/
theorem update_version_current_not_identity_counterexample :
    parseVersion "1.2.03" = some (1, 2, 3)
    ∧ update_version "1.2.03" UpdateType.Current = .ok "1.2.3"
    ∧ ("1.2.3" : String) ≠ "1.2.03" :=
  ⟨rfl, rfl, by decide⟩

/-- C6 (amended): `bump(v, Current)` preserves the numeric values of all
three segments but re-formats them canonically (decimal, no sign, no
leading zeros); it returns `v` itself exactly when `v` is already in that
canonical form. -/
theorem update_version_current_canonical (v : String) (a b c : Nat)
    (h : parseVersion v = some (a, b, c)) :
    update_version v UpdateType.Current = .ok (formatVersion a b c)
    ∧ (v = formatVersion a b c →
        update_version v UpdateType.Current = .ok v) := by
  have hm := parseVersion_eq_some h
  unfold update_version
  rw [hm]
  exact ⟨rfl, fun hv => by rw [hv]⟩

/-- C6 witness: the amended claim evaluated at the canonical `"1.2.3"`,
where Current is the identity. -/
theorem update_version_current_canonical_witness :
    update_version "1.2.3" UpdateType.Current = .ok "1.2.3" :=
  (update_version_current_canonical "1.2.3" 1 2 3 rfl).2 rfl

/-- C7: `update_version` fails (returns an error, never a version) for
every input that does not consist of exactly three dot-separated segments
each parsing as a `u32` — i.e. for every input `parseVersion` rejects. -/
theorem update_version_rejects_malformed (s : String) (kind : UpdateType)
    (h : parseVersion s = none) :
    ∃ msg, update_version s kind = .error msg := by
  unfold parseVersion at h
  unfold update_version
  rcases hm : (splitSegs s.data).mapM parseU32 with _ | l
  · exact ⟨_, rfl⟩
  · rw [hm] at h
    rcases l with _ | ⟨a, _ | ⟨b, _ | ⟨c, _ | ⟨d, rest⟩⟩⟩⟩
    · exact ⟨_, rfl⟩
    · exact ⟨_, rfl⟩
    · exact ⟨_, rfl⟩
    · exact absurd h (by simp)
    · exact ⟨_, rfl⟩

/-- C7 witness: the claim evaluated at `"1.2"` (two segments) and
`"1.2.x"` (a non-numeric segment). -/
theorem update_version_rejects_malformed_witness :
    (parseVersion "1.2" = none
      ∧ ∃ msg, update_version "1.2" UpdateType.Major = .error msg)
    ∧ (parseVersion "1.2.x" = none
      ∧ ∃ msg, update_version "1.2.x" UpdateType.Patch = .error msg) :=
  ⟨⟨rfl, update_version_rejects_malformed "1.2" UpdateType.Major rfl⟩,
   ⟨rfl, update_version_rejects_malformed "1.2.x" UpdateType.Patch rfl⟩⟩

/-- C8 counterexample: `("macos", "arm")` is outside the four recognized
(OS, architecture) pairs, yet the platform-key match does not fail — the
`("macos", _)` catch-all maps it to `darwin-x86_64`, contradicting "every
combination outside these recognized pairs is a fatal failure". -/
theorem platform_key_macos_fallback_counterexample :
    ("macos", "arm") ∉
      [("macos", "aarch64"), ("macos", "x86_64"),
       ("linux", "x86_64"), ("windows", "x86_64")]
    ∧ platform_key "macos" "arm" = some "darwin-x86_64" := by
  exact ⟨by decide, by decide⟩

/-- C8 (amended): the four listed pairs map as the claim states, but
`("macos", a)` for ANY architecture `a ≠ "aarch64"` also maps to
`darwin-x86_64` (a catch-all, not a failure); every combination whose OS
is not `macos` and which is neither `("linux","x86_64")` nor
`("windows","x86_64")` is the fatal `panic!` case. -/
theorem platform_key_mapping :
    platform_key "macos" "aarch64" = some "darwin-aarch64"
    ∧ platform_key "macos" "x86_64" = some "darwin-x86_64"
    ∧ platform_key "linux" "x86_64" = some "linux-x86_64"
    ∧ platform_key "windows" "x86_64" = some "windows-x86_64"
    ∧ (∀ arch, arch ≠ "aarch64" →
        platform_key "macos" arch = some "darwin-x86_64")
    ∧ (∀ os arch, os ≠ "macos" →
        ¬(os = "linux" ∧ arch = "x86_64") →
        ¬(os = "windows" ∧ arch = "x86_64") →
        platform_key os arch = none) := by
  refine ⟨by decide, by decide, by decide, by decide, ?_, ?_⟩
  · intro arch harch
    unfold platform_key
    rw [if_pos rfl, if_neg harch]
  · intro os arch hos hlin hwin
    unfold platform_key
    rw [if_neg hos, if_neg hlin, if_neg hwin]

/-- C8 witness: the amended claim evaluated at `("macos", "powerpc")`
(catch-all) and `("freebsd", "x86_64")` (fatal). -/
theorem platform_key_mapping_witness :
    platform_key "macos" "powerpc" = some "darwin-x86_64"
    ∧ platform_key "freebsd" "x86_64" = none :=
  ⟨platform_key_mapping.2.2.2.2.1 "powerpc" (by decide),
   platform_key_mapping.2.2.2.2.2 "freebsd" "x86_64" (by decide)
     (by decide) (by decide)⟩

/-- A GitHub release as the tool sees it (`struct Release`). -/
structure Release where
  name : String
  upload_url : String
deriving DecidableEq

/-- The JSON body `create_github_release` POSTs to
`/repos/{repo}/releases` (src/github.rs:118-124):
`tag_name = name = tag`, `body = release_notes`, `draft = false`,
`prerelease = false`. -/
structure CreateReleaseRequest where
  tag_name : String
  name : String
  body : String
  draft : Bool
  prerelease : Bool
deriving DecidableEq

/-- The payload `create_github_release` sends for version `tag` and notes
`release_notes`. -/
def createReleasePayload (tag release_notes : String) : CreateReleaseRequest :=
  { tag_name := tag, name := tag, body := release_notes,
    draft := false, prerelease := false }

/-- `StatusCode::is_success` — 2xx. -/
def isSuccessStatus (status : Nat) : Bool :=
  200 ≤ status && status < 300

/-- `get_latest_release` (src/github.rs:41-101): GET
`/repos/{repo}/releases/latest`.  The lookup's outcome is the explicit
argument `lookup`: `none` is a transport (network) error of `send()`,
`some (status, latest)` an HTTP response whose body — parsed only in the
200 arm — is `latest`.  `create_result` stands for the outcome of the
`create_github_release` call, when one is made.  The function returns the
release result paired with the list of create-release POSTs issued:
* 200 with `name == new_version` → reuse, no create call;
* 200 with a different name → one create call;
* 404 → one create call;
* any other status → `Err("Error fetching the latest release: ...")`,
  no create call;
* transport error → one create call ("For simplicity, directly attempt
  to create a new release if there's an error", src/github.rs:94-99). -/
def get_latest_release (lookup : Option (Nat × Release))
    (new_version release_notes : String)
    (create_result : Except String Release) :
    Except String Release × List CreateReleaseRequest :=
  match lookup with
  | none => (create_result, [createReleasePayload new_version release_notes])
  | some (status, latest) =>
      if status = 200 then
        if new_version = latest.name then (.ok latest, [])
        else (create_result, [createReleasePayload new_version release_notes])
      else if status = 404 then
        (create_result, [createReleasePayload new_version release_notes])
      else
        (.error ("Error fetching the latest release: HTTP Status "
          ++ toString status), [])

/-- C4: release selection.  A 200 lookup whose release name equals the
target version is reused with no create call; a 200 with a different name,
or a 404, issues exactly one create call carrying
`tag_name = name = version`, `body = notes`, `draft = false`,
`prerelease = false` and returns its outcome; any non-success status other
than 404 is returned as an error with no create call. -/
theorem get_latest_release_selection (new_version release_notes : String)
    (create_result : Except String Release) :
    (∀ latest, new_version = latest.name →
      get_latest_release (some (200, latest)) new_version release_notes
        create_result = (.ok latest, []))
    ∧ (∀ latest, new_version ≠ latest.name →
      get_latest_release (some (200, latest)) new_version release_notes
        create_result
        = (create_result, [createReleasePayload new_version release_notes]))
    ∧ (∀ latest,
      get_latest_release (some (404, latest)) new_version release_notes
        create_result
        = (create_result, [createReleasePayload new_version release_notes]))
    ∧ (∀ status latest, isSuccessStatus status = false → status ≠ 404 →
      (∃ msg,
        (get_latest_release (some (status, latest)) new_version release_notes
          create_result).1 = .error msg)
      ∧ (get_latest_release (some (status, latest)) new_version release_notes
          create_result).2 = []) := by
  refine ⟨?_, ?_, ?_, ?_⟩
  · intro latest hname
    simp [get_latest_release, hname]
  · intro latest hname
    simp [get_latest_release, hname]
  · intro latest
    simp [get_latest_release]
  · intro status latest hfail h404
    have h200 : status ≠ 200 := by
      intro h; subst h; simp [isSuccessStatus] at hfail
    simp [get_latest_release, h200, h404]

/-- C4 witness: the three behaviours evaluated at concrete responses
(200 with matching name, 200 with a different name, 404, and a 500). -/
theorem get_latest_release_selection_witness :
    get_latest_release (some (200, ⟨"1.2.4", "up"⟩)) "1.2.4" "notes"
      (.ok ⟨"1.2.4", "up2"⟩) = (.ok ⟨"1.2.4", "up"⟩, [])
    ∧ get_latest_release (some (200, ⟨"1.2.3", "up"⟩)) "1.2.4" "notes"
      (.ok ⟨"1.2.4", "up2"⟩)
      = (.ok ⟨"1.2.4", "up2"⟩, [createReleasePayload "1.2.4" "notes"])
    ∧ get_latest_release (some (404, ⟨"", ""⟩)) "1.2.4" "notes"
      (.ok ⟨"1.2.4", "up2"⟩)
      = (.ok ⟨"1.2.4", "up2"⟩, [createReleasePayload "1.2.4" "notes"])
    ∧ (∃ msg,
        (get_latest_release (some (500, ⟨"", ""⟩)) "1.2.4" "notes"
          (.ok ⟨"1.2.4", "up2"⟩)).1 = .error msg)
    ∧ (get_latest_release (some (500, ⟨"", ""⟩)) "1.2.4" "notes"
        (.ok ⟨"1.2.4", "up2"⟩)).2 = [] := by
  have h := get_latest_release_selection "1.2.4" "notes" (.ok ⟨"1.2.4", "up2"⟩)
  exact ⟨h.1 ⟨"1.2.4", "up"⟩ rfl, h.2.1 ⟨"1.2.3", "up"⟩ (by decide),
    h.2.2.1 ⟨"", ""⟩, (h.2.2.2 500 ⟨"", ""⟩ (by decide) (by decide)).1,
    (h.2.2.2 500 ⟨"", ""⟩ (by decide) (by decide)).2⟩

/-- C5 counterexample: a transport (network) failure of the latest-release
lookup does NOT leave the run fatal with no further remote mutation — the
code "for simplicity" falls through to `create_github_release`, so exactly
one release-creation call is issued. -/
theorem get_latest_release_network_error_counterexample :
    (get_latest_release none "1.2.4" "notes" (.ok ⟨"1.2.4", "up"⟩)).2
      = [createReleasePayload "1.2.4" "notes"]
    ∧ (get_latest_release none "1.2.4" "notes" (.ok ⟨"1.2.4", "up"⟩)).2 ≠ [] :=
  ⟨rfl, by decide⟩

/-- C5 (amended): any non-success, non-404 HTTP status from the lookup is
fatal with no create call, but a network (transport) failure of the lookup
is handled like a missing release: the run is not fatal there — exactly
one release-creation call is issued and its outcome is returned. -/
theorem get_latest_release_network_error_creates
    (new_version release_notes : String)
    (create_result : Except String Release) :
    get_latest_release none new_version release_notes create_result
      = (create_result, [createReleasePayload new_version release_notes]) :=
  rfl

/-- `struct PlatformDetail { signature, url }`. -/
structure PlatformDetail where
  signature : String
  url : String
deriving DecidableEq

/-- `struct GistContent { version, notes, pub_date, platforms }` — the
manifest document.  `platforms` (`HashMap<String, PlatformDetail>` in the
source) is an association list; all access below is by key. -/
structure GistContent where
  version : String
  notes : String
  pub_date : String
  platforms : List (String × PlatformDetail)
deriving DecidableEq

/-- The manifest filename `{repo}-javelin-{platform_key}-manifest.json`
(src/github.rs:183 and :270). -/
def manifestFilename (github_repo platform_key : String) : String :=
  github_repo ++ "-javelin-" ++ platform_key ++ "-manifest.json"

/-- The derived `Deserialize` for `PlatformDetail` at the JSON value
level: an object with string fields `signature` and `url` (unknown fields
ignored, as serde does by default). -/
def decodePlatformDetail (j : Json) : Except String PlatformDetail :=
  match (j.getField "signature").asStr, (j.getField "url").asStr with
  | some s, some u => .ok { signature := s, url := u }
  | _, _ => .error "invalid platform detail"

/-- Decode every entry of the `platforms` object, preserving order. -/
def decodePlatforms : List (String × Json) →
    Except String (List (String × PlatformDetail))
  | [] => .ok []
  | (k, v) :: rest => do
      let d ← decodePlatformDetail v
      let ds ← decodePlatforms rest
      .ok ((k, d) :: ds)

/-- The derived `Deserialize` for `GistContent` at the JSON value level
(`serde_json::from_str::<GistContent>` with the text layer elided). -/
def decodeGistContent (j : Json) : Except String GistContent :=
  match (j.getField "version").asStr, (j.getField "notes").asStr,
      (j.getField "pub_date").asStr, j.getField "platforms" with
  | some v, some n, some d, .obj entries =>
      (decodePlatforms entries).map
        (fun ps => { version := v, notes := n, pub_date := d, platforms := ps })
  | _, _, _, _ => .error "invalid manifest document"

/-- The derived `Serialize` for `GistContent` at the JSON value level
(`serde_json::to_string_pretty` with the text layer elided). -/
def encodeGistContent (g : GistContent) : Json :=
  .obj [("version", .str g.version), ("notes", .str g.notes),
        ("pub_date", .str g.pub_date),
        ("platforms", .obj (g.platforms.map (fun e =>
          (e.1, Json.obj [("signature", .str e.2.signature),
                          ("url", .str e.2.url)]))))]

/-- The in-place update of the fetched manifest
(src/github.rs:280-288): overwrite the three scalar fields, then
`platforms.insert(platform_key, new_platform_detail)`. -/
def updateManifest (existing_content : GistContent)
    (new_version new_notes new_pub_date platform_key : String)
    (new_platform_detail : PlatformDetail) : GistContent :=
  { version := new_version, notes := new_notes, pub_date := new_pub_date,
    platforms := setAssoc existing_content.platforms platform_key
      new_platform_detail }

/-- `gist.get_mut("files")`, `as_object_mut`, then the file lookup
(src/github.rs:272-275): the manifest file of the fetched gist body, if
present. -/
def gistManifestJson (gist : List (String × Json)) (filename : String) :
    Option Json :=
  ((gist.lookup "files").bind Json.asObj).bind
    (fun files => files.lookup filename)

/-- `file.get("content")` (src/github.rs:277).  The field's value stands
for the already-parsed content text, hence `Option Json`. -/
def fileContentJson (file : Json) : Option Json :=
  file.asObj.bind (fun fs => fs.lookup "content")

/-- The per-file PATCH body `{"files": {filename: {"content": ...}}}`
(src/github.rs:293-299). -/
structure GistPatchRequest where
  filename : String
  content : Json

/-- `fetch_and_update_gist` (src/github.rs:243-324; the copy in
src/main.rs:788-869 is identical up to naming).  Arguments replace I/O:
`getResp` is the GET of `/gists/{id}` (`none` = transport error of
`send()`, otherwise status and parsed JSON body), `patchStatus` the status
of the PATCH response if one is issued.  Returns the run's outcome and
the list of PATCH calls issued.  Steps, in source order: non-success GET
status → error; body read as a `HashMap<String, Value>` (must be an
object); file `{repo}-javelin-{platform_key}-manifest.json` looked up
under `files` → "File not found in the gist" if absent; its `content`
field → "file content not found" if absent; content deserialized as
`GistContent` (error propagated); scalars overwritten, platform upserted;
the single file PATCHed back; non-success PATCH status → error. -/
def fetch_and_update_gist (github_repo : String)
    (getResp : Option (Nat × Json))
    (new_version new_notes new_pub_date platform_key : String)
    (new_platform_detail : PlatformDetail) (patchStatus : Nat) :
    Except String Unit × List GistPatchRequest :=
  match getResp with
  | none => (.error "error sending request", [])
  | some (status, body) =>
      if isSuccessStatus status then
        match body.asObj with
        | none => (.error "invalid gist response body", [])
        | some gist =>
            let filename := manifestFilename github_repo platform_key
            match gistManifestJson gist filename with
            | none => (.error "File not found in the gist", [])
            | some file =>
                match fileContentJson file with
                | none => (.error "file content not found", [])
                | some content =>
                    match decodeGistContent content with
                    | .error e => (.error e, [])
                    | .ok existing_content =>
                        let updated := updateManifest existing_content
                          new_version new_notes new_pub_date platform_key
                          new_platform_detail
                        let patch : GistPatchRequest :=
                          { filename := filename,
                            content := encodeGistContent updated }
                        if isSuccessStatus patchStatus then (.ok (), [patch])
                        else
                          (.error ("Failed to update gist: Status code "
                            ++ toString patchStatus), [patch])
      else
        (.error ("Failed to fetch gist: Status code " ++ toString status), [])

-- Map-insert lemmas for the association-list model.
theorem lookup_setAssoc_self {α : Type} (l : List (String × α)) (k : String)
    (v : α) : (setAssoc l k v).lookup k = some v := by
  induction l with
  | nil => simp [setAssoc, List.lookup]
  | cons e rest ih =>
      by_cases h : e.1 = k
      · simp [setAssoc, h, List.lookup]
      · have hb : (k == e.1) = false :=
          beq_eq_false_iff_ne.mpr (fun hk => h hk.symm)
        simp only [setAssoc, if_neg h, List.lookup, hb]
        exact ih

theorem lookup_setAssoc_ne {α : Type} (l : List (String × α)) (k k' : String)
    (v : α) (hne : k' ≠ k) : (setAssoc l k v).lookup k' = l.lookup k' := by
  induction l with
  | nil =>
      have hb : (k' == k) = false := beq_eq_false_iff_ne.mpr hne
      simp [setAssoc, List.lookup, hb]
  | cons e rest ih =>
      by_cases h : e.1 = k
      · subst h
        have hb : (k' == e.1) = false := beq_eq_false_iff_ne.mpr hne
        simp [setAssoc, List.lookup, hb]
      · simp only [setAssoc, if_neg h, List.lookup]
        rw [ih]

/-- C2: on the successful read path, `fetch_and_update_gist` writes back
exactly one file — the serialization of the fetched manifest with
precisely the three scalar fields overwritten and the entry for
`platform_key` upserted — and every other platform entry of the fetched
manifest is preserved unchanged (key by key) in the content written
back. -/
theorem fetch_and_update_gist_scoped_upsert (github_repo : String)
    (new_version new_notes new_pub_date platform_key : String)
    (new_platform_detail : PlatformDetail) (patchStatus : Nat)
    (status : Nat) (gist : List (String × Json)) (file content : Json)
    (existing_content : GistContent)
    (hs : isSuccessStatus status = true)
    (hfile : gistManifestJson gist
      (manifestFilename github_repo platform_key) = some file)
    (hcontent : fileContentJson file = some content)
    (hdec : decodeGistContent content = .ok existing_content) :
    (fetch_and_update_gist github_repo (some (status, .obj gist)) new_version
        new_notes new_pub_date platform_key new_platform_detail
        patchStatus).2
      = [{ filename := manifestFilename github_repo platform_key,
           content := encodeGistContent (updateManifest existing_content
             new_version new_notes new_pub_date platform_key
             new_platform_detail) }]
    ∧ (updateManifest existing_content new_version new_notes new_pub_date
        platform_key new_platform_detail).version = new_version
    ∧ (updateManifest existing_content new_version new_notes new_pub_date
        platform_key new_platform_detail).notes = new_notes
    ∧ (updateManifest existing_content new_version new_notes new_pub_date
        platform_key new_platform_detail).pub_date = new_pub_date
    ∧ (updateManifest existing_content new_version new_notes new_pub_date
        platform_key new_platform_detail).platforms.lookup platform_key
      = some new_platform_detail
    ∧ ∀ k, k ≠ platform_key →
        (updateManifest existing_content new_version new_notes new_pub_date
          platform_key new_platform_detail).platforms.lookup k
        = existing_content.platforms.lookup k := by
  refine ⟨?_, rfl, rfl, rfl, ?_, ?_⟩
  · simp only [fetch_and_update_gist, hs, if_true, Json.asObj, hfile,
      hcontent, hdec]
    by_cases hp : isSuccessStatus patchStatus = true
    · simp [hp]
    · simp only [Bool.not_eq_true] at hp
      simp [hp]
  · exact lookup_setAssoc_self existing_content.platforms platform_key
      new_platform_detail
  · intro k hk
    exact lookup_setAssoc_ne existing_content.platforms platform_key k
      new_platform_detail hk

/-- C2 witness: the end-to-end scenario of spec section 8 — a manifest
holding only a `darwin-aarch64` entry, updated for `linux-x86_64`: the
existing entry is preserved, the new one added, the scalars replaced. -/
theorem fetch_and_update_gist_scoped_upsert_witness :
    (fetch_and_update_gist "app"
        (some (200, .obj [("files", .obj [("app-javelin-linux-x86_64-manifest.json",
          .obj [("content", encodeGistContent
            { version := "1.0.0", notes := "x", pub_date := "t",
              platforms := [("darwin-aarch64",
                { signature := "s1", url := "u1" })] })])])]))
        "1.0.1" "new notes" "t2" "linux-x86_64"
        { signature := "s2", url := "u2" } 200).2
      = [{ filename := "app-javelin-linux-x86_64-manifest.json",
           content := encodeGistContent
             { version := "1.0.1", notes := "new notes", pub_date := "t2",
               platforms := [("darwin-aarch64",
                  { signature := "s1", url := "u1" }),
                 ("linux-x86_64", { signature := "s2", url := "u2" })] } }]
    ∧ (updateManifest
        { version := "1.0.0", notes := "x", pub_date := "t",
          platforms := [("darwin-aarch64",
            { signature := "s1", url := "u1" })] }
        "1.0.1" "new notes" "t2" "linux-x86_64"
        { signature := "s2", url := "u2" }).platforms.lookup "darwin-aarch64"
      = some { signature := "s1", url := "u1" } := by
  have h := fetch_and_update_gist_scoped_upsert "app" "1.0.1" "new notes"
    "t2" "linux-x86_64" { signature := "s2", url := "u2" } 200 200
    [("files", .obj [("app-javelin-linux-x86_64-manifest.json",
      .obj [("content", encodeGistContent
        { version := "1.0.0", notes := "x", pub_date := "t",
          platforms := [("darwin-aarch64",
            { signature := "s1", url := "u1" })] })])])]
    (.obj [("content", encodeGistContent
      { version := "1.0.0", notes := "x", pub_date := "t",
        platforms := [("darwin-aarch64",
          { signature := "s1", url := "u1" })] })])
    (encodeGistContent
      { version := "1.0.0", notes := "x", pub_date := "t",
        platforms := [("darwin-aarch64",
          { signature := "s1", url := "u1" })] })
    { version := "1.0.0", notes := "x", pub_date := "t",
      platforms := [("darwin-aarch64", { signature := "s1", url := "u1" })] }
    (by decide) rfl rfl rfl
  exact ⟨h.1, h.2.2.2.2.2 "darwin-aarch64" (by decide)⟩

/-- C10: `fetch_and_update_gist` is atomic on its error paths — if the GET
fails (transport error or non-success status), or the manifest file is
absent from the gist, or it has no content field, or its content fails to
deserialize as a manifest document, the function returns an error and
issues no PATCH, leaving the remote manifest unchanged. -/
theorem fetch_and_update_gist_error_paths_no_patch (github_repo : String)
    (new_version new_notes new_pub_date platform_key : String)
    (new_platform_detail : PlatformDetail) (patchStatus : Nat) :
    ((fetch_and_update_gist github_repo none new_version new_notes
        new_pub_date platform_key new_platform_detail patchStatus).2 = []
      ∧ ∃ msg, (fetch_and_update_gist github_repo none new_version new_notes
        new_pub_date platform_key new_platform_detail patchStatus).1
        = .error msg)
    ∧ (∀ status body, isSuccessStatus status = false →
        (fetch_and_update_gist github_repo (some (status, body)) new_version
          new_notes new_pub_date platform_key new_platform_detail
          patchStatus).2 = []
        ∧ ∃ msg, (fetch_and_update_gist github_repo (some (status, body))
          new_version new_notes new_pub_date platform_key new_platform_detail
          patchStatus).1 = .error msg)
    ∧ (∀ status gist, isSuccessStatus status = true →
        gistManifestJson gist
          (manifestFilename github_repo platform_key) = none →
        (fetch_and_update_gist github_repo (some (status, .obj gist))
          new_version new_notes new_pub_date platform_key new_platform_detail
          patchStatus).2 = []
        ∧ (fetch_and_update_gist github_repo (some (status, .obj gist))
          new_version new_notes new_pub_date platform_key new_platform_detail
          patchStatus).1 = .error "File not found in the gist")
    ∧ (∀ status gist file, isSuccessStatus status = true →
        gistManifestJson gist
          (manifestFilename github_repo platform_key) = some file →
        fileContentJson file = none →
        (fetch_and_update_gist github_repo (some (status, .obj gist))
          new_version new_notes new_pub_date platform_key new_platform_detail
          patchStatus).2 = []
        ∧ (fetch_and_update_gist github_repo (some (status, .obj gist))
          new_version new_notes new_pub_date platform_key new_platform_detail
          patchStatus).1 = .error "file content not found")
    ∧ (∀ status gist file content msg, isSuccessStatus status = true →
        gistManifestJson gist
          (manifestFilename github_repo platform_key) = some file →
        fileContentJson file = some content →
        decodeGistContent content = .error msg →
        (fetch_and_update_gist github_repo (some (status, .obj gist))
          new_version new_notes new_pub_date platform_key new_platform_detail
          patchStatus).2 = []
        ∧ (fetch_and_update_gist github_repo (some (status, .obj gist))
          new_version new_notes new_pub_date platform_key new_platform_detail
          patchStatus).1 = .error msg) := by
  refine ⟨⟨rfl, _, rfl⟩, ?_, ?_, ?_, ?_⟩
  · intro status body hs
    simp only [fetch_and_update_gist, hs, Bool.false_eq_true, if_false]
    exact ⟨by trivial, _, by trivial⟩
  · intro status gist hs hfile
    simp only [fetch_and_update_gist, hs, if_true, Json.asObj, hfile]
    exact ⟨by trivial, by trivial⟩
  · intro status gist file hs hfile hcontent
    simp only [fetch_and_update_gist, hs, if_true, Json.asObj, hfile,
      hcontent]
    exact ⟨by trivial, by trivial⟩
  · intro status gist file content msg hs hfile hcontent hdec
    simp only [fetch_and_update_gist, hs, if_true, Json.asObj, hfile,
      hcontent, hdec]
    exact ⟨by trivial, by trivial⟩

/-- C10 witness: three error paths evaluated concretely — a 404 GET, a
success GET whose gist has no files, and a gist whose manifest file
content fails to deserialize. -/
theorem fetch_and_update_gist_error_paths_no_patch_witness :
    ((fetch_and_update_gist "app" (some (404, .obj [])) "v" "n" "d"
        "linux-x86_64" { signature := "s", url := "u" } 200).2 = []
      ∧ ∃ msg, (fetch_and_update_gist "app" (some (404, .obj [])) "v" "n" "d"
        "linux-x86_64" { signature := "s", url := "u" } 200).1 = .error msg)
    ∧ ((fetch_and_update_gist "app" (some (200, .obj [])) "v" "n" "d"
        "linux-x86_64" { signature := "s", url := "u" } 200).2 = [])
    ∧ ((fetch_and_update_gist "app"
        (some (200, .obj [("files", .obj
          [("app-javelin-linux-x86_64-manifest.json",
            .obj [("content", .str "not a manifest")])])]))
        "v" "n" "d" "linux-x86_64" { signature := "s", url := "u" } 200).2
      = []) := by
  have h := fetch_and_update_gist_error_paths_no_patch "app" "v" "n" "d"
    "linux-x86_64" { signature := "s", url := "u" } 200
  exact ⟨h.2.1 404 (.obj []) (by decide),
    (h.2.2.1 200 [] (by decide) rfl).1,
    (h.2.2.2.2 200
      [("files", .obj [("app-javelin-linux-x86_64-manifest.json",
        .obj [("content", .str "not a manifest")])])]
      (.obj [("content", .str "not a manifest")]) (.str "not a manifest")
      "invalid manifest document" (by decide) rfl rfl rfl).1⟩

-- Reading back a field just set on an object.
theorem getField_setField_self (fields : List (String × Json)) (k : String)
    (v : Json) : (Json.setField (.obj fields) k v).getField k = v := by
  simp [Json.setField, Json.getField, lookup_setAssoc_self]

/-- `update_tauri_config_endpoint` (src/utilities.rs:43-62, duplicated in
src/main.rs:57-76): if `config["tauri"]["updater"]` is an object, set its
`endpoints` to the one-element array `[new_endpoint]` and write the
config back; otherwise fail.  (With a malformed config, `serde_json`'s
mutable indexing would insert nulls or panic before the error return, but
nothing is persisted on that path, so the value-level model returns the
config unchanged.) -/
def update_tauri_config_endpoint (config : Json) (new_endpoint : String) :
    Except String Json :=
  match ((config.getField "tauri").getField "updater").asObj with
  | some updater =>
      .ok (config.setField "tauri" ((config.getField "tauri").setField
        "updater" (.obj (setAssoc updater "endpoints"
          (.arr [.str new_endpoint])))))
  | none => .error "Failed to find updater configuration in Tauri config"

/-- The POST body `create_and_upload_gist` sends to `/gists`
(src/github.rs:189-197): a description, `public = false`, and a single
file `{filename: {content: <pretty-printed document>}}`. -/
structure GistCreateRequest where
  description : String
  gistPublic : Bool
  filename : String
  content : Json

/-- The raw-content URL `https://gist.github.com/{username}/{gist_id}/raw`
(src/github.rs:216-219). -/
def gistRawUrl (github_username gist_id : String) : String :=
  "https://gist.github.com/" ++ github_username ++ "/" ++ gist_id ++ "/raw"

/-- `create_and_upload_gist` (src/github.rs:170-240).  `postResp` is the
outcome of the POST to `/gists` (`none` = transport error, otherwise
status and parsed JSON body; `error_for_status()?` makes every non-2xx
status an early error, so the source's non-success `else` branch after it
is dead code).  Returns the request that was POSTed, the result, and the
local tauri config after the call.  On a success response whose body has
a string `id`: rewrite the local updater config's endpoints to
`https://gist.github.com/{username}/{gist_id}/raw` and return the id; on
a success response without an `id`: fail with "Gist created but no ID
returned", leaving the local config untouched. -/
def create_and_upload_gist (github_repo github_username : String)
    (gist_content : GistContent) (platform_key : String)
    (postResp : Option (Nat × Json)) (tauri_config : Json) :
    GistCreateRequest × Except String String × Json :=
  let description := github_repo ++ "-javelin-" ++ platform_key
  let filename := manifestFilename github_repo platform_key
  let request : GistCreateRequest :=
    { description := description, gistPublic := false, filename := filename,
      content := encodeGistContent gist_content }
  match postResp with
  | none => (request, .error "error sending request", tauri_config)
  | some (status, body) =>
      if isSuccessStatus status then
        match (body.getField "id").asStr with
        | some gist_id =>
            let gist_updater_endpoint := gistRawUrl github_username gist_id
            match update_tauri_config_endpoint tauri_config
                gist_updater_endpoint with
            | .ok cfg => (request, .ok gist_id, cfg)
            | .error e => (request, .error e, tauri_config)
        | none => (request, .error "Gist created but no ID returned",
            tauri_config)
      else
        (request, .error ("Failed to create gist: Status code "
          ++ toString status), tauri_config)


/-- C9: the gist-creation call POSTs the serialized document as a single
private (`public = false`) file named
`{repo}-javelin-{platform_key}-manifest.json`; on a success response whose
body carries a string `id` (and a well-formed local updater config) it
returns that id and rewrites the local config's endpoint list to the raw
URL derived from the owner and the id; on a success response with no `id`
it fails with the distinct "Gist created but no ID returned" error and
leaves the local config unchanged. -/
theorem create_and_upload_gist_behavior (github_repo github_username : String)
    (gist_content : GistContent) (platform_key : String) :
    (∀ postResp tauri_config,
      (create_and_upload_gist github_repo github_username gist_content
          platform_key postResp tauri_config).1
        = { description := github_repo ++ "-javelin-" ++ platform_key,
            gistPublic := false,
            filename := manifestFilename github_repo platform_key,
            content := encodeGistContent gist_content })
    ∧ (∀ status body gist_id cfgFields tauriFields updaterFields,
        isSuccessStatus status = true →
        (body.getField "id").asStr = some gist_id →
        cfgFields.lookup "tauri" = some (Json.obj tauriFields) →
        tauriFields.lookup "updater" = some (Json.obj updaterFields) →
        (create_and_upload_gist github_repo github_username gist_content
            platform_key (some (status, body)) (.obj cfgFields)).2.1
          = .ok gist_id
        ∧ ((((create_and_upload_gist github_repo github_username gist_content
            platform_key (some (status, body))
            (.obj cfgFields)).2.2.getField "tauri").getField
              "updater").getField "endpoints"
          = .arr [.str (gistRawUrl github_username gist_id)]))
    ∧ (∀ status body tauri_config,
        isSuccessStatus status = true →
        (body.getField "id").asStr = none →
        (create_and_upload_gist github_repo github_username gist_content
            platform_key (some (status, body)) tauri_config).2.1
          = .error "Gist created but no ID returned"
        ∧ (create_and_upload_gist github_repo github_username gist_content
            platform_key (some (status, body)) tauri_config).2.2
          = tauri_config) := by
  refine ⟨?_, ?_, ?_⟩
  · intro postResp tauri_config
    unfold create_and_upload_gist
    rcases postResp with _ | ⟨status, body⟩
    · rfl
    · by_cases hs : isSuccessStatus status = true
      · simp only [hs, if_true]
        rcases hid : (body.getField "id").asStr with _ | gist_id
        · rfl
        · simp only
          rcases hup : update_tauri_config_endpoint tauri_config
            (gistRawUrl github_username gist_id) with e | cfg
          · simp only [hup]
          · simp only [hup]
      · simp only [Bool.not_eq_true] at hs
        simp only [hs, Bool.false_eq_true, if_false]
  · intro status body gist_id cfgFields tauriFields updaterFields hs hid
      htauri hupd
    have hgettauri : (Json.obj cfgFields).getField "tauri"
        = Json.obj tauriFields := by
      simp [Json.getField, htauri]
    have hgetupd : (Json.obj tauriFields).getField "updater"
        = Json.obj updaterFields := by
      simp [Json.getField, hupd]
    have hendpoint : update_tauri_config_endpoint (Json.obj cfgFields)
        (gistRawUrl github_username gist_id)
        = .ok ((Json.obj cfgFields).setField "tauri"
            ((Json.obj tauriFields).setField "updater"
              (.obj (setAssoc updaterFields "endpoints"
                (.arr [.str (gistRawUrl github_username gist_id)]))))) := by
      unfold update_tauri_config_endpoint
      rw [hgettauri, hgetupd]
      rfl
    constructor
    · simp only [create_and_upload_gist, hs, if_true, hid, hendpoint]
    · simp only [create_and_upload_gist, hs, if_true, hid, hendpoint]
      rw [getField_setField_self, getField_setField_self]
      simp [Json.getField, lookup_setAssoc_self]
  · intro status body tauri_config hs hid
    simp only [create_and_upload_gist, hs, if_true, hid]
    exact ⟨by trivial, by trivial⟩

/-- C9 witness: a success response `{"id": "abc123"}` against a config
with an updater section rewrites the endpoint list and returns the id; a
success response `{}` yields the distinct no-ID error and leaves the
config unchanged. -/
theorem create_and_upload_gist_behavior_witness :
    (create_and_upload_gist "app" "owner"
        { version := "1.0.0", notes := "n", pub_date := "t", platforms := [] }
        "linux-x86_64" (some (201, .obj [("id", .str "abc123")]))
        (.obj [("tauri", .obj [("updater", .obj [("pubkey", .str "pk"),
          ("endpoints", .arr [])])])])).2.1 = .ok "abc123"
    ∧ ((((create_and_upload_gist "app" "owner"
        { version := "1.0.0", notes := "n", pub_date := "t", platforms := [] }
        "linux-x86_64" (some (201, .obj [("id", .str "abc123")]))
        (.obj [("tauri", .obj [("updater", .obj [("pubkey", .str "pk"),
          ("endpoints", .arr [])])])])).2.2.getField "tauri").getField
            "updater").getField "endpoints"
        = .arr [.str (gistRawUrl "owner" "abc123")])
    ∧ ((create_and_upload_gist "app" "owner"
        { version := "1.0.0", notes := "n", pub_date := "t", platforms := [] }
        "linux-x86_64" (some (201, .obj [])) (.obj [])).2.1
      = .error "Gist created but no ID returned") := by
  have h := create_and_upload_gist_behavior "app" "owner"
    { version := "1.0.0", notes := "n", pub_date := "t", platforms := [] }
    "linux-x86_64"
  have h2 := h.2.1 201 (.obj [("id", .str "abc123")]) "abc123"
    [("tauri", .obj [("updater", .obj [("pubkey", .str "pk"),
      ("endpoints", .arr [])])])]
    [("updater", .obj [("pubkey", .str "pk"), ("endpoints", .arr [])])]
    [("pubkey", .str "pk"), ("endpoints", .arr [])]
    (by decide) rfl rfl rfl
  have h3 := h.2.2 201 (.obj []) (.obj []) (by decide) rfl
  exact ⟨h2.1, h2.2, h3.1⟩

/-- `reset_version_in_config` as defined in src/main.rs:144-166 (the copy
actually compiled into the binary): read the file at `config_path`,
require a JSON object at the root, and insert `"version": reset_version`
AT THE ROOT of that object — not under `package` — then write it back.
(src/utilities.rs:131-157 holds a differing, uncompiled variant that
targets `package.version`.) -/
def reset_version_in_config (config : Json) (reset_version : String) :
    Except String Json :=
  match config with
  | .obj fields => .ok (.obj (setAssoc fields "version" (.str reset_version)))
  | _ => .error "Expected a JSON object at the root of the configuration"

/-- `read_and_update_version` (src/main.rs:88-110): read the tauri config
file, take `json["package"]["version"]` as a string, bump it with
`update_version`, store the bumped string back at `package.version` and
write the file; returns the new version and the file's new content. -/
def read_and_update_version (file_json : Json) (update_type : UpdateType) :
    Except String (String × Json) :=
  match ((file_json.getField "package").getField "version").asStr with
  | some version_str =>
      match update_version version_str update_type with
      | .ok new_version =>
          .ok (new_version, file_json.setField "package"
            ((file_json.getField "package").setField "version"
              (.str new_version)))
      | .error e => .error e
  | none => .error "Version not found in the specified file"

/-- The two persisted files after a run that fails at the build step. -/
structure FailedRunState where
  toolConfig : Json
  tauriConfig : Json
  exitCode : Nat

/-- The workflow of `main` (src/main.rs:509-641) up to a build failure:
`current_version` is read from the tauri config
(`../src-tauri/tauri.conf.json`), `read_and_update_version` bumps and
persists `package.version` there, the build is run and fails, and the
failure handler `exit_with_error!(config_path, &current_version)`
(src/main.rs:78-84, invoked at src/main.rs:640) runs
`reset_version_in_config` against `config_path` — the TOOL's own config
file `tauri_javelin.conf.json`, not the tauri config that was bumped —
ignores its result, and exits with status 1.  `none` means the run ended
before the bump persisted (no rollback scenario arises). -/
def run_until_build_failure (toolConfig tauriConfig : Json)
    (update_type : UpdateType) : Option FailedRunState :=
  match ((tauriConfig.getField "package").getField "version").asStr with
  | none => none
  | some current_version =>
      match read_and_update_version tauriConfig update_type with
      | .error _ => none
      | .ok (_, tauriConfig') =>
          let toolConfig' :=
            match reset_version_in_config toolConfig current_version with
            | .ok c => c
            | .error _ => toolConfig
          some { toolConfig := toolConfig', tauriConfig := tauriConfig',
                 exitCode := 1 }

/-- A representative `tauri_javelin.conf.json` (the tool's own config). -/
def exampleToolConfig : Json :=
  .obj [("github_username", .str "fleebee"), ("github_repo", .str "app"),
        ("github_pat", .str "pat"), ("secret_key_location", .str "k"),
        ("secret_key_password", .str "p"), ("gist_id", .str "")]

/-- A representative `../src-tauri/tauri.conf.json` at version 1.2.3. -/
def exampleTauriConfig : Json :=
  .obj [("package", .obj [("productName", .str "App"),
          ("version", .str "1.2.3")]),
        ("tauri", .obj [("updater", .obj [("pubkey", .str "pk"),
          ("endpoints", .arr [])])])]

/-- C1: with the app manifest at version 1.2.3 and a Patch run that fails
at the build step, the failure handler does NOT restore `package.version`
in the app manifest: after the handler runs, the app manifest still holds
the bumped "1.2.4", while the pre-run "1.2.3" has been written into a
root-level `version` field of the tool's own config file
`tauri_javelin.conf.json` — the rollback targets the wrong file (the
macro call passes `config_path`, not `tauri_config_path`) and the
wrong key (root `version`, not `package.version`). -/
theorem rollback_misses_app_manifest :
    (run_until_build_failure exampleToolConfig exampleTauriConfig
      UpdateType.Patch).map
        (fun r => ((r.tauriConfig.getField "package").getField "version",
          r.toolConfig.getField "version", r.exitCode))
      = some (.str "1.2.4", .str "1.2.3", 1)
    ∧ "1.2.4" ≠ "1.2.3" :=
  ⟨rfl, by decide⟩
